import Mathlib

/-!
Shallow embedding of the GA4-Data-Fetcher core (user_classification.py,
ga4_data_fetcher.py, batch_processor.py) and verification of the frozen
claims about it.

Conventions of the embedding:
* Python strings are `List Char` (Unicode code points, matching Python's
  string indexing/slicing semantics).
* Calendar dates are modelled as `Int` day numbers; `datetime.timedelta(days=d)`
  is addition of `d`; `strftime`/`pd.to_datetime` round-trips between a valid
  date and its day number are identities of this model.
* The GA4 backend call `client.run_report` is a parameter
  `RunReportRequest → Except (List Char) ReportResponse`; `.error` models a
  raised exception, whose payload is the message string.
* A pandas DataFrame is a list of rows; `NaN`/`NaT` cells are `Option.none`.
-/

/-! ## user_classification.py -/

/--
`classify_users(users, detailed=False)` from user_classification.py:
  if users < 10000: "0-10k"
  elif users < 20000: "10-20k"
  elif users < 30000: "20-30k"
  elif users < 40000: "30-40k"
  elif detailed and users < 100000: "40k-100k"
  else: ">40k" if not detailed else ">100k"
-/
def classify_users (users : Int) (detailed : Bool) : String :=
  if users < 10000 then "0-10k"
  else if users < 20000 then "10-20k"
  else if users < 30000 then "20-30k"
  else if users < 40000 then "30-40k"
  else if detailed = true ∧ users < 100000 then "40k-100k"
  else if detailed = false then ">40k" else ">100k"

/-- The six rows of the milestone table of spec §4.6, as
(standard label, detailed label) pairs, in increasing order of count range. -/
def milestone_table : List (String × String) :=
  [("0-10k", "0-10k"), ("10-20k", "10-20k"), ("20-30k", "20-30k"),
   ("30-40k", "30-40k"), (">40k", "40k-100k"), (">40k", ">100k")]

/-- Rank of a label in the ordered enumeration of spec §4.6 (the standard
label ">40k" covers the last two rows; we use the lower one). -/
def category_rank : String → Nat
  | "0-10k" => 0
  | "10-20k" => 1
  | "20-30k" => 2
  | "30-40k" => 3
  | "40k-100k" => 4
  | ">40k" => 4
  | ">100k" => 5
  | _ => 6

/-! ## ga4_data_fetcher.py: create_url_regex_pattern -/

/-- The configured site domain stripped by `create_url_regex_pattern`
(source comment: "Update the domain below to match your website"). -/
def site_domain : List Char := "https://www.yourpage.com/".data

/-- The characters escaped by Python's `re.escape` (CPython 3.7+
`_special_chars_map`): every character that can have special meaning in a
regular expression, including whitespace. -/
def isSpecialChar (c : Char) : Bool :=
  c ∈ ['(', ')', '[', ']', '\x7b', '\x7d', '?', '*', '+', '-', '|', '^',
       '$', '\\', '.', '&', '~', '#', ' ', '\t', '\n', '\r', '\x0b', '\x0c']

/-- Python `re.escape`: prepend a backslash to every special character. -/
def re_escape : List Char → List Char
  | [] => []
  | c :: rest => (if isSpecialChar c then ['\\', c] else [c]) ++ re_escape rest

/--
`create_url_regex_pattern(url)` from ga4_data_fetcher.py:
strip the site prefix when `url.startswith(...)` (the guarded
`url.replace(p, "", 1)` removes exactly the leading occurrence),
keep the first 40 characters, then `re.escape` the result.
-/
def create_url_regex_pattern (url : List Char) : List Char :=
  let processed_url :=
    if site_domain.isPrefixOf url then url.drop site_domain.length else url
  re_escape (processed_url.take 40)

/-! ## ga4_data_fetcher.py: get_users_for_url -/

/-- One row of a GA4 report response: a pagePath dimension value and the
integer value of its totalUsers metric (`int(row.metric_values[0].value)`). -/
structure ReportRow where
  page_path : List Char
  metric_value : Int
deriving Repr, DecidableEq

/-- A GA4 `RunReport` response: its list of rows. -/
structure ReportResponse where
  rows : List ReportRow
deriving Repr, DecidableEq

/-- The request built by `get_users_for_url`: property string, the single
date range, and the PARTIAL_REGEXP pagePath filter value. -/
structure RunReportRequest where
  property : List Char
  start_date : Int
  end_date : Int
  filter_pattern : List Char
deriving Repr, DecidableEq

/-- The request object constructed in `get_users_for_url` (the dimension is
always pagePath and the metric always totalUsers, so only the varying fields
are modelled). -/
def build_report_request (property_id : List Char) (regex_pattern : List Char)
    (start_date end_date : Int) : RunReportRequest :=
  { property := "properties/".data ++ property_id
    start_date := start_date
    end_date := end_date
    filter_pattern := regex_pattern }

/-- Pattern resolution at the top of `get_users_for_url`:
`if custom_regex:` is Python truthiness, so `None` and the empty string both
fall back to the generated pattern. -/
def resolve_regex_pattern (url : List Char) (custom_regex : Option (List Char)) :
    List Char :=
  match custom_regex with
  | some r => if r = [] then create_url_regex_pattern url else r
  | none => create_url_regex_pattern url

/-- The `try`/`except` tail of `get_users_for_url` for an already-resolved
pattern: run the request; on success accumulate
`user_count += int(row.metric_values[0].value)` over `response.rows`; on any
exception return 0. -/
def run_report_reduce (run_report : RunReportRequest → Except (List Char) ReportResponse)
    (property_id regex_pattern : List Char) (start_date end_date : Int) : Int :=
  match run_report (build_report_request property_id regex_pattern start_date end_date) with
  | .ok response => response.rows.foldl (fun user_count row => user_count + row.metric_value) 0
  | .error _ => 0

/--
`get_users_for_url(client, property_id, url, start_date, end_date,
custom_regex=None)` from ga4_data_fetcher.py: resolve the pattern, build the
request, run it, and reduce the response (or the exception) to an integer.
-/
def get_users_for_url (run_report : RunReportRequest → Except (List Char) ReportResponse)
    (property_id url : List Char) (start_date end_date : Int)
    (custom_regex : Option (List Char) := none) : Int :=
  run_report_reduce run_report property_id (resolve_regex_pattern url custom_regex)
    start_date end_date

/-! ## batch_processor.py -/

/-- A raw `date_published` CSV cell before `pd.to_datetime`:
an empty/NaN cell, a parseable date (its day number), or a non-missing
string that fails date parsing. -/
inductive DateCell
  | missing
  | valid (d : Int)
  | malformed
deriving Repr, DecidableEq

/-- One input-CSV row as loaded by `pd.read_csv`: the url, the raw
`date_published` cell, and the optional `regex` cell (`none` models both a
missing column and a NaN cell, via `if 'regex' in row and pd.notna(...)`). -/
structure RawRow where
  url : List Char
  date_published : DateCell
  regex : Option (List Char) := none
deriving Repr, DecidableEq

/-- `pd.to_datetime(df['date_published'])` with its default `errors='raise'`:
NaN cells become NaT (`none`), parseable cells become their date, and a
malformed cell raises `ValueError`, modelled as `.error`. -/
def to_datetime_column : List DateCell → Except (List Char) (List (Option Int))
  | [] => .ok []
  | DateCell.malformed :: _ => .error "ValueError: Unknown datetime string format".data
  | DateCell.missing :: rest =>
      match to_datetime_column rest with
      | .ok ds => .ok (none :: ds)
      | .error e => .error e
  | DateCell.valid d :: rest =>
      match to_datetime_column rest with
      | .ok ds => .ok (some d :: ds)
      | .error e => .error e

/-- An entry of the `invalid_dates` list: `{'row': i+1, 'url': url}`. -/
structure InvalidEntry where
  row : Nat
  url : List Char
deriving Repr, DecidableEq

/-- The window computed by `process_url_batch` for one (row, days) pair:
start is the publication date, end is
`pub_date + datetime.timedelta(days=days)`. -/
def window_fixed_offset (pub_date : Int) (days : Nat) : Int × Int :=
  (pub_date, pub_date + (days : Int))

/-- One output row of `process_url_batch`: the input columns plus one
`users_{days}_days` count per entry of `days_list` (aligned with it),
initialised to 0. -/
structure BatchOutRow where
  url : List Char
  date_published : Option Int
  users_days : List Int
deriving Repr, DecidableEq

/-- The row loop of `process_url_batch` (index `i` is the 0-based DataFrame
index): a NaT date appends `{'row': i+1, 'url': url}` to `invalid_dates` and
leaves the row's counts at 0; otherwise every `days` in `days_list` is
fetched over the fixed-offset window. The fetch argument abstracts
`get_users_for_url(client, property_id, url, start, end)` (never given a
custom pattern here). -/
def process_url_batch_rows (fetch : List Char → Int → Int → Int)
    (days_list : List Nat) :
    Nat → List (RawRow × Option Int) → List BatchOutRow × List InvalidEntry
  | _, [] => ([], [])
  | i, (r, pub?) :: rest =>
    let tail := process_url_batch_rows fetch days_list (i + 1) rest
    match pub? with
    | none =>
        (⟨r.url, none, days_list.map fun _ => 0⟩ :: tail.1,
         ⟨i + 1, r.url⟩ :: tail.2)
    | some pub_date =>
        (⟨r.url, some pub_date,
          days_list.map fun days =>
            fetch r.url (window_fixed_offset pub_date days).1
              (window_fixed_offset pub_date days).2⟩ :: tail.1,
         tail.2)

/-- `process_url_batch(client, property_id, input_file, days_list, ...)`:
load the CSV, convert the date column (which can raise), then run the row
loop. The sleep between calls and the prints are not modelled. -/
def process_url_batch (fetch : List Char → Int → Int → Int)
    (input_rows : List RawRow) (days_list : List Nat) :
    Except (List Char) (List BatchOutRow × List InvalidEntry) :=
  match to_datetime_column (input_rows.map (·.date_published)) with
  | .error e => .error e
  | .ok dates => .ok (process_url_batch_rows fetch days_list 0 (input_rows.zip dates))

/-- One output row of `process_url_batch_to_date`: the input columns plus the
single `users_to_{end_date}` count, initialised to 0. -/
structure ToDateOutRow where
  url : List Char
  date_published : Option Int
  users_to_date : Int
deriving Repr, DecidableEq

/-- A call made to `get_users_for_url` by the to-date row loop, recorded so
that "no fetch call occurs" is expressible. -/
structure FetchCall where
  url : List Char
  start_date : Int
  end_date : Int
  custom_regex : Option (List Char)
deriving Repr, DecidableEq

/-- The body of the row loop of `process_url_batch_to_date` for one row:
NaT date → InvalidEntry and count left 0; `pub_date > end_date` → row
skipped (count left 0, no InvalidEntry, no fetch); otherwise one fetch,
with the row's `regex` cell as custom pattern when present. The fetch
argument abstracts `get_users_for_url`; the calls made are returned. -/
def process_row_to_date (fetch : List Char → Int → Int → Option (List Char) → Int)
    (end_date : Int) (i : Nat) (r : RawRow) (pub? : Option Int) :
    ToDateOutRow × List InvalidEntry × List FetchCall :=
  match pub? with
  | none => (⟨r.url, none, 0⟩, [⟨i + 1, r.url⟩], [])
  | some pub_date =>
    if pub_date > end_date then
      (⟨r.url, some pub_date, 0⟩, [], [])
    else
      match r.regex with
      | some regex_pattern =>
          (⟨r.url, some pub_date, fetch r.url pub_date end_date (some regex_pattern)⟩,
           [], [⟨r.url, pub_date, end_date, some regex_pattern⟩])
      | none =>
          (⟨r.url, some pub_date, fetch r.url pub_date end_date none⟩,
           [], [⟨r.url, pub_date, end_date, none⟩])

/-- The row loop of `process_url_batch_to_date`, concatenating the per-row
results in input order. -/
def process_rows_to_date (fetch : List Char → Int → Int → Option (List Char) → Int)
    (end_date : Int) :
    Nat → List (RawRow × Option Int) →
      List ToDateOutRow × List InvalidEntry × List FetchCall
  | _, [] => ([], [], [])
  | i, (r, pub?) :: rest =>
    let head := process_row_to_date fetch end_date i r pub?
    let tail := process_rows_to_date fetch end_date (i + 1) rest
    (head.1 :: tail.1, head.2.1 ++ tail.2.1, head.2.2 ++ tail.2.2)

/-- `process_url_batch_to_date(client, property_id, input_file, end_date, ...)`:
load the CSV, convert the date column (which can raise), then run the row
loop against the fixed `end_date`. -/
def process_url_batch_to_date (fetch : List Char → Int → Int → Option (List Char) → Int)
    (input_rows : List RawRow) (end_date : Int) :
    Except (List Char) (List ToDateOutRow × List InvalidEntry × List FetchCall) :=
  match to_datetime_column (input_rows.map (·.date_published)) with
  | .error e => .error e
  | .ok dates => .ok (process_rows_to_date fetch end_date 0 (input_rows.zip dates))

/-- An output row of `calculate_user_milestones`: the batch row plus, aligned
with `users_days`, one (standard, detailed) milestone label pair per period. -/
structure MilestoneRow where
  url : List Char
  date_published : Option Int
  users_days : List Int
  milestones : List (String × String)
deriving Repr, DecidableEq

/-- `calculate_user_milestones(df, days_list)`: for every period column,
`df[...].apply(lambda x: classify_users(x, detailed=False))` and the detailed
variant — i.e. every row, valid or not, gets both labels for each count. -/
def calculate_user_milestones (rows : List BatchOutRow) : List MilestoneRow :=
  rows.map fun r =>
    ⟨r.url, r.date_published, r.users_days,
     r.users_days.map fun x => (classify_users x false, classify_users x true)⟩

/-- `calculate_user_milestones_to_date(df, users_column)`: both labels are
computed from the single users column for every row. -/
def calculate_user_milestones_to_date (rows : List ToDateOutRow) :
    List (ToDateOutRow × String × String) :=
  rows.map fun r =>
    (r, classify_users r.users_to_date false, classify_users r.users_to_date true)

/-! ## Helper lemmas -/

/-- `classify_users` with `detailed=False`, with the detailed branch
simplified away. -/
lemma classify_users_false_eq (n : Int) :
    classify_users n false =
      if n < 10000 then "0-10k"
      else if n < 20000 then "10-20k"
      else if n < 30000 then "20-30k"
      else if n < 40000 then "30-40k"
      else ">40k" := by
  simp [classify_users]

/-- `classify_users` with `detailed=True`, with the boolean guards
simplified away. -/
lemma classify_users_true_eq (n : Int) :
    classify_users n true =
      if n < 10000 then "0-10k"
      else if n < 20000 then "10-20k"
      else if n < 30000 then "20-30k"
      else if n < 40000 then "30-40k"
      else if n < 100000 then "40k-100k"
      else ">100k" := by
  simp [classify_users]

/-- The running-total loop of `get_users_for_url` is summation. -/
lemma foldl_metric_eq_sum (l : List ReportRow) (a : Int) :
    l.foldl (fun user_count row => user_count + row.metric_value) a
      = a + (l.map (fun row => row.metric_value)).sum := by
  induction l generalizing a with
  | nil => simp
  | cons r t ih => simp [ih, add_assoc]

/-! ## Claim theorems -/

/-- Claim C3: for every non-negative integer count, `classify_users` maps it
to the label given by the spec §4.6 table of half-open intervals with lower
bounds inclusive; in particular the boundary values 0, 9999, 10000, 39999,
40000, 99999, 100000 map to the listed standard and detailed labels. -/
theorem claim_C3_classifier_table :
    (∀ n : Int, 0 ≤ n →
      (n < 10000 → classify_users n false = "0-10k" ∧ classify_users n true = "0-10k") ∧
      (10000 ≤ n → n < 20000 →
        classify_users n false = "10-20k" ∧ classify_users n true = "10-20k") ∧
      (20000 ≤ n → n < 30000 →
        classify_users n false = "20-30k" ∧ classify_users n true = "20-30k") ∧
      (30000 ≤ n → n < 40000 →
        classify_users n false = "30-40k" ∧ classify_users n true = "30-40k") ∧
      (40000 ≤ n → n < 100000 →
        classify_users n false = ">40k" ∧ classify_users n true = "40k-100k") ∧
      (100000 ≤ n → classify_users n false = ">40k" ∧ classify_users n true = ">100k")) ∧
    (classify_users 0 false = "0-10k" ∧ classify_users 9999 false = "0-10k" ∧
     classify_users 10000 false = "10-20k" ∧ classify_users 39999 false = "30-40k" ∧
     classify_users 40000 false = ">40k" ∧ classify_users 99999 false = ">40k" ∧
     classify_users 100000 false = ">40k") ∧
    (classify_users 0 true = "0-10k" ∧ classify_users 9999 true = "0-10k" ∧
     classify_users 10000 true = "10-20k" ∧ classify_users 39999 true = "30-40k" ∧
     classify_users 40000 true = "40k-100k" ∧ classify_users 99999 true = "40k-100k" ∧
     classify_users 100000 true = ">100k") := by
  refine ⟨fun n h0 => ?_, by decide, by decide⟩
  rw [classify_users_false_eq, classify_users_true_eq]
  refine ⟨fun h => ?_, fun h h2 => ?_, fun h h2 => ?_, fun h h2 => ?_,
    fun h h2 => ?_, fun h => ?_⟩ <;>
    constructor <;> (split_ifs <;> first | rfl | omega)

/-- Claim C3 witness: the general table clause at the concrete count 15000. -/
theorem claim_C3_classifier_table_witness :
    classify_users 15000 false = "10-20k" ∧ classify_users 15000 true = "10-20k" :=
  (claim_C3_classifier_table.1 15000 (by decide)).2.1 (by decide) (by decide)

/-- Claim C9: for each fixed detailed flag, the category rank of
`classify_users n detailed` is monotonically non-decreasing as the
non-negative integer n increases, and the result is always one of the six
labels of the corresponding column of the spec §4.6 table. -/
theorem claim_C9_classifier_monotone (detailed : Bool) (m n : Int)
    (h0 : 0 ≤ m) (hmn : m ≤ n) :
    category_rank (classify_users m detailed) ≤ category_rank (classify_users n detailed) ∧
    classify_users n detailed ∈
      milestone_table.map (fun row => cond detailed row.2 row.1) := by
  cases detailed
  · rw [classify_users_false_eq, classify_users_false_eq n]
    constructor
    · split_ifs <;> simp [category_rank] <;> omega
    · split_ifs <;> decide
  · rw [classify_users_true_eq, classify_users_true_eq n]
    constructor
    · split_ifs <;> simp [category_rank] <;> omega
    · split_ifs <;> decide

/-- Claim C9 witness: monotonicity and label membership at the concrete pair
(detailed, 0, 50000). -/
theorem claim_C9_classifier_monotone_witness :
    category_rank (classify_users 0 true) ≤ category_rank (classify_users 50000 true) ∧
    classify_users 50000 true ∈
      milestone_table.map (fun row => cond true row.2 row.1) :=
  claim_C9_classifier_monotone true 0 50000 (by decide) (by decide)

/-- Claim C8: under the fixed-offset policy, for every valid publication
date and every non-negative number of days, the computed window has
start = publicationDate and end = publicationDate + days, so end - start
equals exactly days; and the batch row loop fetches each period of
`days_list` over exactly that window. -/
theorem claim_C8_fixed_offset_window (pub_date : Int) (days : Nat) :
    (window_fixed_offset pub_date days).1 = pub_date ∧
    (window_fixed_offset pub_date days).2 = pub_date + (days : Int) ∧
    (window_fixed_offset pub_date days).2 - (window_fixed_offset pub_date days).1
      = (days : Int) ∧
    ∀ (fetch : List Char → Int → Int → Int) (days_list : List Nat) (i : Nat)
      (r : RawRow) (rest : List (RawRow × Option Int)),
      (process_url_batch_rows fetch days_list i ((r, some pub_date) :: rest)).1.head? =
        some ⟨r.url, some pub_date,
          days_list.map fun d : Nat => fetch r.url pub_date (pub_date + (d : Int))⟩ := by
  refine ⟨rfl, rfl, by simp [window_fixed_offset], ?_⟩
  intro fetch days_list i r rest
  rfl

/-- Claim C5: under the up-to-cutoff policy, a row whose valid publication
date is strictly after the cutoff end date makes no fetch call, records no
InvalidEntry, and its user-count column stays at its default 0. -/
theorem claim_C5_cutoff_skip
    (fetch : List Char → Int → Int → Option (List Char) → Int)
    (end_date : Int) (i : Nat) (r : RawRow) (pub_date : Int)
    (h : pub_date > end_date) :
    process_row_to_date fetch end_date i r (some pub_date) =
      (⟨r.url, some pub_date, 0⟩, [], []) := by
  simp [process_row_to_date, h]

/-- Claim C5 witness: the skip at the concrete cutoff 10 and publication
date 11. -/
theorem claim_C5_cutoff_skip_witness :
    process_row_to_date (fun _ _ _ _ => 99) 10 0 ⟨"u".data, DateCell.valid 11, none⟩
        (some 11) =
      (⟨"u".data, some 11, 0⟩, [], []) :=
  claim_C5_cutoff_skip (fun _ _ _ _ => 99) 10 0 ⟨"u".data, DateCell.valid 11, none⟩ 11
    (by decide)

/-- Claim C2: whenever the backend call made by `get_users_for_url` raises,
the function catches the exception at this boundary and returns 0; nothing
propagates to the caller. -/
theorem claim_C2_backend_error_returns_zero
    (run_report : RunReportRequest → Except (List Char) ReportResponse)
    (property_id url : List Char) (start_date end_date : Int)
    (custom_regex : Option (List Char)) (err : List Char)
    (h : run_report (build_report_request property_id
          (resolve_regex_pattern url custom_regex) start_date end_date)
        = Except.error err) :
    get_users_for_url run_report property_id url start_date end_date custom_regex = 0 := by
  simp [get_users_for_url, run_report_reduce, h]

/-- Claim C2 witness: a backend that always raises yields 0 at a concrete
call. -/
theorem claim_C2_backend_error_returns_zero_witness :
    get_users_for_url (fun _ => Except.error "boom".data) "p".data "u".data 0 1 none = 0 :=
  claim_C2_backend_error_returns_zero (fun _ => Except.error "boom".data)
    "p".data "u".data 0 1 none "boom".data rfl

/-- Claim C4: whenever the backend call made by `get_users_for_url`
succeeds, the function returns the sum of the metric value over all returned
rows; for the synthetic response with rows [("a", 3), ("b", 5)] it returns
8, and for an empty response it returns 0. -/
theorem claim_C4_sum_over_rows :
    (∀ (run_report : RunReportRequest → Except (List Char) ReportResponse)
       (property_id url : List Char) (start_date end_date : Int)
       (custom_regex : Option (List Char)) (response : ReportResponse),
       run_report (build_report_request property_id
           (resolve_regex_pattern url custom_regex) start_date end_date)
         = Except.ok response →
       get_users_for_url run_report property_id url start_date end_date custom_regex
         = (response.rows.map fun row => row.metric_value).sum) ∧
    get_users_for_url (fun _ => Except.ok ⟨[⟨"a".data, 3⟩, ⟨"b".data, 5⟩]⟩)
      "p".data "u".data 0 1 none = 8 ∧
    get_users_for_url (fun _ => Except.ok ⟨[]⟩) "p".data "u".data 0 1 none = 0 := by
  refine ⟨?_, by decide, by decide⟩
  intro run_report property_id url start_date end_date custom_regex response h
  simp [get_users_for_url, run_report_reduce, h, foldl_metric_eq_sum]

/-- Claim C4 witness: the general sum clause at the concrete synthetic
response [("a", 3), ("b", 5)]. -/
theorem claim_C4_sum_over_rows_witness :
    get_users_for_url (fun _ => Except.ok ⟨[⟨"a".data, 3⟩, ⟨"b".data, 5⟩]⟩)
      "q".data "v".data 2 3 none = 8 :=
  (claim_C4_sum_over_rows.1 (fun _ => Except.ok ⟨[⟨"a".data, 3⟩, ⟨"b".data, 5⟩]⟩)
    "q".data "v".data 2 3 none ⟨[⟨"a".data, 3⟩, ⟨"b".data, 5⟩]⟩ rfl).trans (by decide)

/-- Claim C10: after the classifying step every output row — including rows
whose counts stayed at the default 0 because they were invalid or skipped —
carries a (standard, detailed) milestone label pair for each of its count
columns, a count of 0 yielding "0-10k" in both; no category cell is left
unset, and no row is dropped. -/
theorem claim_C10_milestones_total (rows : List BatchOutRow)
    (tdrows : List ToDateOutRow) :
    (calculate_user_milestones rows).length = rows.length ∧
    (calculate_user_milestones rows).map (fun m => m.milestones) =
      rows.map (fun r => r.users_days.map fun x =>
        (classify_users x false, classify_users x true)) ∧
    (calculate_user_milestones_to_date tdrows).length = tdrows.length ∧
    (calculate_user_milestones_to_date tdrows).map (fun p => (p.2.1, p.2.2)) =
      tdrows.map (fun r =>
        (classify_users r.users_to_date false, classify_users r.users_to_date true)) ∧
    classify_users 0 false = "0-10k" ∧ classify_users 0 true = "0-10k" := by
  refine ⟨by simp [calculate_user_milestones], ?_,
    by simp [calculate_user_milestones_to_date], ?_, by decide, by decide⟩
  · simp [calculate_user_milestones]
  · simp [calculate_user_milestones_to_date]

/-- Claim C7 counterexample: a caller-supplied custom pattern that is the
empty string is falsy under `if custom_regex:`, so the issued query carries
the pattern derived from the url instead of the supplied one — a backend
that answers 7 to an empty filter pattern and 9 otherwise sees 9. -/
theorem claim_C7_counterexample :
    resolve_regex_pattern "abc".data (some []) = create_url_regex_pattern "abc".data ∧
    create_url_regex_pattern "abc".data ≠ ([] : List Char) ∧
    get_users_for_url
      (fun req => if req.filter_pattern = [] then Except.ok ⟨[⟨[], 7⟩]⟩
                  else Except.ok ⟨[⟨req.filter_pattern, 9⟩]⟩)
      "p".data "abc".data 0 1 (some []) = 9 := by
  decide

/-- Claim C7 (amended): the backend query uses the caller-supplied custom
pattern whenever it is non-empty; when the supplied pattern is absent or the
empty string, the pattern derived from the url is used instead. -/
theorem claim_C7_amended
    (run_report : RunReportRequest → Except (List Char) ReportResponse)
    (property_id url : List Char) (start_date end_date : Int) (p : List Char)
    (hp : p ≠ []) :
    get_users_for_url run_report property_id url start_date end_date (some p)
      = run_report_reduce run_report property_id p start_date end_date ∧
    get_users_for_url run_report property_id url start_date end_date none
      = run_report_reduce run_report property_id (create_url_regex_pattern url)
          start_date end_date ∧
    get_users_for_url run_report property_id url start_date end_date (some [])
      = run_report_reduce run_report property_id (create_url_regex_pattern url)
          start_date end_date := by
  refine ⟨?_, rfl, rfl⟩
  simp [get_users_for_url, resolve_regex_pattern, hp]

/-- Claim C7 witness: the amended behaviour at a concrete non-empty custom
pattern "x" against a backend echoing the filter pattern's metric. -/
theorem claim_C7_amended_witness :
    get_users_for_url (fun req => Except.ok ⟨[⟨req.filter_pattern, 4⟩]⟩)
        "p".data "abc".data 0 1 (some "x".data)
      = run_report_reduce (fun req => Except.ok ⟨[⟨req.filter_pattern, 4⟩]⟩)
          "p".data "x".data 0 1 :=
  (claim_C7_amended (fun req => Except.ok ⟨[⟨req.filter_pattern, 4⟩]⟩)
    "p".data "abc".data 0 1 "x".data (by decide)).1

/-- Claim C1 evaluation (code bug): a row whose date cell is absent is
recorded as a 1-based InvalidEntry, excluded from fetching, and kept in the
output with its zero metric column — but a row whose non-missing date cell
fails date-parsing makes `pd.to_datetime` (default `errors='raise'`) raise
before any row is processed, so the run aborts with no output table instead
of recording an InvalidEntry. -/
theorem claim_C1_malformed_date_aborts :
    process_url_batch (fun _ _ _ => 7)
        [⟨"a".data, DateCell.valid 0, none⟩, ⟨"b".data, DateCell.missing, none⟩] [30]
      = Except.ok ([⟨"a".data, some 0, [7]⟩, ⟨"b".data, none, [0]⟩],
                   [⟨2, "b".data⟩]) ∧
    process_url_batch (fun _ _ _ => 7)
        [⟨"a".data, DateCell.valid 0, none⟩, ⟨"b".data, DateCell.malformed, none⟩] [30]
      = Except.error "ValueError: Unknown datetime string format".data ∧
    process_url_batch_to_date (fun _ _ _ _ => 7)
        [⟨"a".data, DateCell.malformed, none⟩] 100
      = Except.error "ValueError: Unknown datetime string format".data := by
  exact ⟨rfl, rfl, rfl⟩

/-! ## Escaping lemmas for the Pattern Builder claim -/

/-- The characters of a pattern that stand for themselves under regex
scanning: a backslash together with the character after it forms an escape
sequence and is skipped; every other character is an unescaped occurrence. -/
def unescaped_chars : List Char → List Char
  | [] => []
  | c :: rest =>
    if c = '\\' then
      match rest with
      | [] => [c]
      | _ :: rest2 => unescaped_chars rest2
    else
      c :: unescaped_chars rest

lemma unescaped_chars_esc (d : Char) (rest : List Char) :
    unescaped_chars ('\\' :: d :: rest) = unescaped_chars rest := rfl

lemma unescaped_chars_ne (c : Char) (rest : List Char) (hc : c ≠ '\\') :
    unescaped_chars (c :: rest) = c :: unescaped_chars rest := by
  rw [unescaped_chars.eq_def]
  simp [hc]

lemma ne_backslash_of_not_special {c : Char} (h : ¬ isSpecialChar c = true) :
    c ≠ '\\' := by
  intro hc
  subst hc
  exact h (by decide)

/-- Scanning the output of `re.escape`, the unescaped occurrences are
precisely the non-special input characters. -/
lemma unescaped_re_escape (s : List Char) :
    unescaped_chars (re_escape s) = s.filter (fun c => !isSpecialChar c) := by
  induction s with
  | nil => rfl
  | cons c s' ih =>
    by_cases hc : isSpecialChar c
    · rw [show re_escape (c :: s') = '\\' :: c :: re_escape s' by simp [re_escape, hc],
        unescaped_chars_esc, ih, List.filter_cons]
      simp [hc]
    · rw [show re_escape (c :: s') = c :: re_escape s' by simp [re_escape, hc],
        unescaped_chars_ne c _ (ne_backslash_of_not_special hc),
        ih, List.filter_cons]
      simp [hc]

/-- The output of `re.escape` can only start with a special character when
that character is the escaping backslash. -/
lemma re_escape_head_special (s : List Char) (c : Char) (rest : List Char)
    (h : re_escape s = c :: rest) (hc : isSpecialChar c = true) : c = '\\' := by
  cases s with
  | nil => exact absurd h (by simp [re_escape])
  | cons c0 s' =>
    by_cases h0 : isSpecialChar c0
    · rw [show re_escape (c0 :: s') = '\\' :: c0 :: re_escape s' by simp [re_escape, h0]]
        at h
      exact (List.cons.injEq _ _ _ _ ▸ h).1.symm
    · rw [show re_escape (c0 :: s') = c0 :: re_escape s' by simp [re_escape, h0]] at h
      have hcc : c = c0 := ((List.cons.injEq _ _ _ _ ▸ h).1).symm
      rw [hcc] at hc
      exact absurd hc h0

/-- The two-character sequence "w." never occurs in the output of
`re.escape`: the dot, being special, is always preceded by a backslash. -/
lemma re_escape_no_wdot (s : List Char) :
    ∀ a b : List Char, re_escape s ≠ a ++ 'w' :: '.' :: b := by
  induction s with
  | nil =>
    intro a b h
    simp [re_escape] at h
  | cons c s' ih =>
    intro a b h
    by_cases hc : isSpecialChar c
    · rw [show re_escape (c :: s') = '\\' :: c :: re_escape s' by simp [re_escape, hc]]
        at h
      cases a with
      | nil => simp at h
      | cons x a' =>
        obtain ⟨hx, h'⟩ := List.cons.injEq _ _ _ _ ▸ h
        cases a' with
        | nil =>
          obtain ⟨hcw, _⟩ := List.cons.injEq _ _ _ _ ▸ h'
          rw [hcw] at hc
          exact absurd hc (by decide)
        | cons y a'' =>
          obtain ⟨_, h''⟩ := List.cons.injEq _ _ _ _ ▸ h'
          exact ih a'' b h''
    · rw [show re_escape (c :: s') = c :: re_escape s' by simp [re_escape, hc]] at h
      cases a with
      | nil =>
        obtain ⟨_, h'⟩ := List.cons.injEq _ _ _ _ ▸ h
        have := re_escape_head_special s' '.' b h' (by decide)
        exact absurd this (by decide)
      | cons x a' =>
        obtain ⟨_, h'⟩ := List.cons.injEq _ _ _ _ ▸ h
        exact ih a' b h'

/-- The configured site prefix split around its "w." at the end of "www.". -/
lemma site_domain_split :
    site_domain = "https://ww".data ++ 'w' :: '.' :: "yourpage.com/".data := by
  decide

/-- Claim C6: `create_url_regex_pattern` strips the configured site prefix
when the URL begins with it (otherwise uses the URL unmodified), truncates
the result to its first 40 code points before escaping, and escapes every
regex-special character — so the configured prefix never appears in the
derived pattern and no regex-special character appears unescaped in the
output. -/
theorem claim_C6_pattern_builder (url : List Char) :
    (site_domain.isPrefixOf url = true →
      create_url_regex_pattern url = re_escape ((url.drop site_domain.length).take 40)) ∧
    (site_domain.isPrefixOf url = false →
      create_url_regex_pattern url = re_escape (url.take 40)) ∧
    ((if site_domain.isPrefixOf url then url.drop site_domain.length
      else url).take 40).length ≤ 40 ∧
    ¬ site_domain <:+: create_url_regex_pattern url ∧
    ∀ c ∈ unescaped_chars (create_url_regex_pattern url), isSpecialChar c = false := by
  have hpat : create_url_regex_pattern url =
      re_escape ((if site_domain.isPrefixOf url then url.drop site_domain.length
        else url).take 40) := rfl
  refine ⟨fun h => by simp [create_url_regex_pattern, h],
    fun h => by simp [create_url_regex_pattern, h],
    List.length_take_le _ _, ?_, ?_⟩
  · intro hinf
    obtain ⟨t, u, htu⟩ := hinf
    rw [hpat] at htu
    exact re_escape_no_wdot _ (t ++ "https://ww".data) ("yourpage.com/".data ++ u)
      (by rw [← htu, site_domain_split]; simp)
  · intro c hc
    rw [hpat, unescaped_re_escape] at hc
    have := List.of_mem_filter hc
    simpa using this

/-- Claim C6 witness: the prefix-stripping clause and the non-containment of
the prefix at the concrete url "https://www.yourpage.com/a.b". -/
theorem claim_C6_pattern_builder_witness :
    create_url_regex_pattern "https://www.yourpage.com/a.b".data
      = re_escape (("https://www.yourpage.com/a.b".data.drop site_domain.length).take 40) ∧
    ¬ site_domain <:+: create_url_regex_pattern "https://www.yourpage.com/a.b".data :=
  ⟨(claim_C6_pattern_builder "https://www.yourpage.com/a.b".data).1 (by decide),
   (claim_C6_pattern_builder "https://www.yourpage.com/a.b".data).2.2.2.1⟩
